import Mathlib

/-!
# Goodix touchscreen driver (`drivers/input/touchscreen/goodix.c`)

A shallow embedding of the driver's report decoder, event emitter, configuration
reader, probe routine and interrupt / deferred-work cycle, followed by the
properties established about them.

Conventions of the embedding

* A `u8 *` pointer is a byte memory `Mem` (index to byte) together with an offset.
* Every call the driver makes into the surrounding kernel (bus transfers, input
  core, IRQ core, work queue, GPIO, kernel log with level error / warning / info)
  is appended to `World.trace` in program order.  `dev_dbg` calls are compiled
  out and are not recorded.
* The outcome of the k-th `i2c_transfer` and of the k-th `i2c_master_send` is
  given by the scripts `World.xfer` and `World.send`; quantifying over the scripts
  quantifies over every behaviour of the bus.
* Stores through a pointer are total functions on `Mem`; that they stay inside the
  array the pointer comes from is a property proved separately
  below (the buffer-bounds theorem), for every contact limit of at least 1.
* Locals that C leaves uninitialised are parameters (`stack`, `ProbeStack`).
-/

set_option autoImplicit false

namespace Goodix

/-! ## Constants -/

def GOODIX_MAX_HEIGHT : Nat := 480
def GOODIX_MAX_WIDTH : Nat := 800
def GOODIX_INT_TRIGGER : Nat := 1
def GOODIX_CONTACT_SIZE : Nat := 8
def GOODIX_MAX_CONTACTS : Nat := 5
def GOODIX_CONFIG_MAX_LENGTH : Nat := 240

def GOODIX_READ_COOR_ADDR : Nat := 0x814E
def GOODIX_REG_CONFIG_DATA : Nat := 0x8047
def GOODIX_REG_VERSION : Nat := 0x8140

def RESOLUTION_LOC : Nat := 1
def MAX_CONTACTS_LOC : Nat := 5
def TRIGGER_LOC : Nat := 6

/-- Modelled from the spec: errno `EIO` of the kernel's errno header (not under
src/); the spec's `BusError` for a short transfer. -/
def EIO : Int := 5
/-- Modelled from the spec: errno `ENXIO` of the kernel's errno header (not under src/). -/
def ENXIO : Int := 6
/-- Modelled from the spec: errno `ENOMEM` of the kernel's errno header (not under src/). -/
def ENOMEM : Int := 12
/-- Modelled from the spec: errno `ENODEV` of the kernel's errno header (not under
src/); the spec's `ResourceUnavailable`. -/
def ENODEV : Int := 19
/-- Modelled from the spec: errno `EPROTO` of the kernel's errno header (not under
src/); the spec's `ProtocolError`. -/
def EPROTO : Int := 71

/-- Modelled from the spec: input event code of the touch button, from the
kernel's input-event-codes header (not under src/). -/
def BTN_TOUCH : Nat := 0x14a
/-- Modelled from the spec: input event code of the absolute X axis, from the
kernel's input-event-codes header (not under src/). -/
def ABS_X : Nat := 0x00
/-- Modelled from the spec: input event code of the absolute Y axis, from the
kernel's input-event-codes header (not under src/). -/
def ABS_Y : Nat := 0x01
/-- Modelled from the spec: input event code of the pressure axis, from the
kernel's input-event-codes header (not under src/). -/
def ABS_PRESSURE : Nat := 0x18

/-- Modelled from the spec: trigger kind "rising edge", value of the kernel's irq
header (not under src/). -/
def IRQ_TYPE_EDGE_RISING : Nat := 0x1
/-- Modelled from the spec: trigger kind "falling edge", value of the kernel's irq
header (not under src/). -/
def IRQ_TYPE_EDGE_FALLING : Nat := 0x2
/-- Modelled from the spec: trigger kind "level-high", value of the kernel's irq
header (not under src/). -/
def IRQ_TYPE_LEVEL_HIGH : Nat := 0x4
/-- Modelled from the spec: trigger kind "level-low", value of the kernel's irq
header (not under src/). -/
def IRQ_TYPE_LEVEL_LOW : Nat := 0x8
/-- Modelled from the spec: mask of the trigger-kind bits inside IRQ request flags,
`IRQF_TRIGGER_MASK` of the kernel's interrupt header (not under src/). -/
def IRQF_TRIGGER_MASK : Nat := 0xf
/-- Modelled from the spec: the one-shot request flag of the kernel's interrupt
header (not under src/). -/
def IRQF_ONESHOT : Nat := 0x2000

/-! ## Data model -/

/-- Byte memory reachable from a `u8 *` base pointer: index to byte value. -/
abbrev Mem := Nat → Nat

/-- Calls made by the driver into the surrounding kernel, in the order made. -/
inductive Effect where
  /-- A combined write-then-read transfer issued by `goodix_i2c_read`: register
  address, offset of the destination inside the caller's buffer, read length. -/
  | i2c_transfer (reg off len : Nat)
  | i2c_master_send (buf : List Nat)
  | input_report_key (code : Nat) (value : Int)
  | input_report_abs (code : Nat) (value : Int)
  | input_sync
  | input_set_abs_params (axis : Nat) (min max fuzz flat : Int)
  | set_evbit (bit : Nat)
  | set_absbit (bit : Nat)
  | set_keybit (bit : Nat)
  | input_register_device
  | disable_irq_nosync (irq : Int)
  | enable_irq (irq : Int)
  | schedule_delayed_work (delay_ms : Nat)
  | INIT_DELAYED_WORK
  | request_any_context_irq (irq : Int) (flags : Nat)
  | gpio_request (gpio : Int)
  | gpio_direction_output (gpio : Int) (value : Nat)
  | gpio_direction_input (gpio : Int)
  | gpio_set_value (gpio : Int) (value : Nat)
  | gpio_free (gpio : Int)
  | mdelay (ms : Nat)
  | msleep (ms : Nat)
  | dev_err
  | dev_warn
  | dev_info
  deriving DecidableEq, Repr

/-- Outcome of one `i2c_transfer` call: its return value (a negative errno or the
number of messages executed) and the bytes the slave puts on the bus. -/
structure Xfer where
  ret : Int
  rx : Nat → Nat

/-- The kernel as seen by the driver: scripted bus outcomes, how many of them have
been consumed, and the calls made so far. -/
structure World where
  xfer : Nat → Xfer
  send : Nat → Int
  n_xfer : Nat
  n_send : Nat
  trace : List Effect

/-- The fields of `struct i2c_client` the driver consults. -/
structure i2c_client where
  addr : Nat
  irq : Int

/-- The driver's per-device session, `struct goodix_ts_data`. -/
structure goodix_ts_data where
  client : i2c_client
  abs_x_max : Int
  abs_y_max : Int
  max_touch_num : Nat
  int_trigger_type : Nat

/-- Append one call to the trace. -/
def World.emit (w : World) (e : Effect) : World :=
  { w with trace := w.trace ++ [e] }

/-- Modelled from the spec: `get_unaligned_le16` of the kernel's unaligned-access
header (not under src/): the little-endian 16-bit value at `p[off]`, `p[off+1]`. -/
def get_unaligned_le16 (p : Mem) (off : Nat) : Nat :=
  p off + 256 * p (off + 1)

/-! ## Bus transport adapter -/

/-- Result of a register read: status, the caller's buffer afterwards, the world. -/
structure ReadResult where
  ret : Int
  data : Mem
  world : World

/-- Embedding of `goodix_i2c_read`: one `i2c_transfer` of two messages (the
big-endian register address, then a read of `len` bytes to `buf + off`).
The read message deposits the scripted bytes in `buf[off .. off+len)`; when the
transfer fails the callers never consult the buffer, so the scripted bytes then
stand for whatever a failed transfer leaves behind. -/
def goodix_i2c_read (w : World) (reg : Nat) (buf : Mem) (off len : Nat) : ReadResult :=
  let x := w.xfer w.n_xfer
  let ret := x.ret
  { ret := if ret < 0 then ret else (if ret ≠ 2 then - EIO else 0)
    data := fun i => if off ≤ i ∧ i < off + len then x.rx (i - off) % 256 else buf i
    world := { w with n_xfer := w.n_xfer + 1
                      trace := w.trace ++ [Effect.i2c_transfer (reg % 65536) off len] } }

/-! ## Report decoder -/

/-- Embedding of `goodix_ts_read_input_report`; `data` is the caller's report buffer. -/
def goodix_ts_read_input_report (ts : goodix_ts_data) (data : Mem) (w : World) : ReadResult :=
  let r1 := goodix_i2c_read w GOODIX_READ_COOR_ADDR data 0 (GOODIX_CONTACT_SIZE + 1)
  if r1.ret ≠ 0 then
    { ret := r1.ret, data := r1.data, world := r1.world.emit Effect.dev_err }
  else
    let finger := r1.data 0
    if finger = 0x00 then
      { r1 with ret := -EPROTO }
    else if finger &&& 0x80 = 0 then
      { r1 with ret := -EPROTO }
    else
      let touch_num := finger &&& 0x0f
      if touch_num > ts.max_touch_num then
        { r1 with ret := -EPROTO }
      else if touch_num > 1 then
        let r2 := goodix_i2c_read r1.world (GOODIX_READ_COOR_ADDR + 1 + GOODIX_CONTACT_SIZE)
                    r1.data (1 + GOODIX_CONTACT_SIZE) (GOODIX_CONTACT_SIZE * (touch_num - 1))
        if r2.ret ≠ 0 then r2 else { r2 with ret := (touch_num : Int) }
      else
        { r1 with ret := (touch_num : Int) }

/-! ## Event emitter -/

/-- The local variables of `goodix_ts_report_touch`. -/
structure TouchLocals where
  id : Int
  input_x : Int
  input_y : Int
  input_w : Int
  deriving DecidableEq, Repr

/-- The decoding done at the head of `goodix_ts_report_touch`; `coor_data` is the
pointer `mem + base`. -/
def goodix_ts_report_touch_locals (mem : Mem) (base : Nat) : TouchLocals :=
  { id := ((mem (base + 1) &&& 0x0F : Nat) : Int)
    input_x := (get_unaligned_le16 mem (base + 2) : Int)
    input_y := (get_unaligned_le16 mem (base + 4) : Int)
    input_w := (get_unaligned_le16 mem (base + 6) : Int) }

/-- Embedding of `goodix_ts_report_touch` (the compiled `#else` branch). -/
def goodix_ts_report_touch (_ts : goodix_ts_data) (mem : Mem) (base : Nat) (w : World) : World :=
  let l := goodix_ts_report_touch_locals mem base
  ((((w.emit (Effect.input_report_key BTN_TOUCH 1)).emit
      (Effect.input_report_abs ABS_X l.input_y)).emit
      (Effect.input_report_abs ABS_Y l.input_x)).emit
      (Effect.input_report_abs ABS_PRESSURE 200)).emit Effect.input_sync

/-- Embedding of `goodix_process_events`; `stack` is the uninitialised content of
the local array `point_data`. -/
def goodix_process_events (ts : goodix_ts_data) (stack : Mem) (w : World) : World :=
  let r := goodix_ts_read_input_report ts stack w
  let touch_num := r.ret
  if touch_num = 1 then
    (List.range 1).foldl
      (fun w1 i => goodix_ts_report_touch ts r.data (GOODIX_CONTACT_SIZE * i) w1) r.world
  else
    ((r.world.emit (Effect.input_report_key BTN_TOUCH 0)).emit
      (Effect.input_report_abs ABS_PRESSURE 0)).emit Effect.input_sync

/-! ## Interrupt / deferred-work orchestrator -/

/-- Modelled from the spec: `IRQ_HANDLED` of the kernel's irqreturn header (not
under src/), the value an interrupt handler returns once it has taken the interrupt. -/
def IRQ_HANDLED : Int := 1

/-- The acknowledge command `end_cmd` of `goodix_work`. -/
def end_cmd : List Nat :=
  [GOODIX_READ_COOR_ADDR >>> 8, GOODIX_READ_COOR_ADDR &&& 0xff, 0]

/-- A call of `i2c_master_send`: consumes the next scripted return value. -/
def i2c_master_send (w : World) (buf : List Nat) : Int × World :=
  (w.send w.n_send,
   { w with n_send := w.n_send + 1, trace := w.trace ++ [Effect.i2c_master_send buf] })

/-- Embedding of `goodix_work`, the deferred-work callback. -/
def goodix_work (ts : goodix_ts_data) (stack : Mem) (w : World) : World :=
  let w1 := goodix_process_events ts stack w
  let s := i2c_master_send w1 end_cmd
  let w2 := if s.1 < 0 then s.2.emit Effect.dev_err else s.2
  w2.emit (Effect.enable_irq ts.client.irq)

/-- Embedding of `goodix_ts_irq_handler` (the compiled `USE_WORK_DELAY` branch);
`msecs_to_jiffies(15)` is recorded as the delay in milliseconds. -/
def goodix_ts_irq_handler (irq : Int) (_ts : goodix_ts_data) (w : World) : Int × World :=
  let w1 := w.emit (Effect.disable_irq_nosync irq)
  let w2 := w1.emit (Effect.schedule_delayed_work 15)
  (IRQ_HANDLED, w2)

/-! ## Capability / configuration reader -/

/-- Embedding of `goodix_read_config`; `stack` is the uninitialised content of the
local array `config`. -/
def goodix_read_config (ts : goodix_ts_data) (stack : Mem) (w : World) :
    goodix_ts_data × World :=
  let r := goodix_i2c_read w GOODIX_REG_CONFIG_DATA stack 0 GOODIX_CONFIG_MAX_LENGTH
  if r.ret ≠ 0 then
    ({ ts with abs_x_max := (GOODIX_MAX_WIDTH : Int)
               abs_y_max := (GOODIX_MAX_HEIGHT : Int)
               int_trigger_type := GOODIX_INT_TRIGGER
               max_touch_num := GOODIX_MAX_CONTACTS },
     r.world.emit Effect.dev_warn)
  else
    let config := r.data
    let ts1 : goodix_ts_data :=
      { ts with abs_x_max := (get_unaligned_le16 config RESOLUTION_LOC : Int)
                abs_y_max := (get_unaligned_le16 config (RESOLUTION_LOC + 2) : Int)
                int_trigger_type := config TRIGGER_LOC &&& 0x03
                max_touch_num := config MAX_CONTACTS_LOC &&& 0x0f }
    let invalid : Prop := ts1.abs_x_max = 0 ∨ ts1.abs_y_max = 0 ∨ ts1.max_touch_num = 0
    let ts2 : goodix_ts_data :=
      if invalid then
        { ts1 with abs_x_max := (GOODIX_MAX_WIDTH : Int)
                   abs_y_max := (GOODIX_MAX_HEIGHT : Int)
                   max_touch_num := GOODIX_MAX_CONTACTS }
      else ts1
    let w2 : World := if invalid then r.world.emit Effect.dev_err else r.world
    ({ ts2 with max_touch_num := GOODIX_MAX_CONTACTS }, w2)

/-- Embedding of `goodix_read_version`; returns the status and the version value
(the caller's `version_info`, left at its previous value `old` on failure). -/
def goodix_read_version (old : Nat) (stack : Mem) (w : World) : Int × Nat × World :=
  let r := goodix_i2c_read w GOODIX_REG_VERSION stack 0 6
  if r.ret ≠ 0 then
    (r.ret, old, r.world.emit Effect.dev_err)
  else
    (0, get_unaligned_le16 r.data 4 % 65536, r.world.emit Effect.dev_info)

/-- The `while (retry++ < 2)` loop of `goodix_i2c_test`, with `n` attempts left and
`error` the value of the local of that name. -/
def goodix_i2c_test_loop (test : Mem) : Nat → Int → World → Int × World
  | 0, error, w => (error, w)
  | n + 1, _, w =>
    let r := goodix_i2c_read w GOODIX_REG_CONFIG_DATA test 0 1
    if r.ret = 0 then (0, r.world)
    else goodix_i2c_test_loop r.data n r.ret
          ((r.world.emit Effect.dev_err).emit (Effect.msleep 20))

/-- Embedding of `goodix_i2c_test`: at most two one-byte reads of the configuration
register; `error0` and `test` are the uninitialised locals. -/
def goodix_i2c_test (error0 : Int) (test : Mem) (w : World) : Int × World :=
  goodix_i2c_test_loop test 2 error0 w

/-! ## Device bring-up and probe -/

/-- Modelled from the spec: event type `EV_SYN` of the kernel's input-event-codes
header (not under src/). -/
def EV_SYN : Nat := 0x00
/-- Modelled from the spec: event type `EV_KEY` of the kernel's input-event-codes
header (not under src/). -/
def EV_KEY : Nat := 0x01
/-- Modelled from the spec: event type `EV_ABS` of the kernel's input-event-codes
header (not under src/). -/
def EV_ABS : Nat := 0x03

/-- Outcomes of the platform calls made while probing (allocation, device tree,
GPIO, input core and IRQ core), which the driver only consumes. -/
structure Platform where
  i2c_check_functionality : Bool
  devm_kzalloc_ok : Bool
  of_node : Bool
  goodix_rst : Int
  goodix_int : Int
  gpio_is_valid : Int → Bool
  gpio_request : Int → Int
  devm_input_allocate_device_ok : Bool
  input_register_device : Int
  request_any_context_irq : Int

/-- Append several calls to the trace, in order. -/
def World.emits (w : World) (es : List Effect) : World :=
  { w with trace := w.trace ++ es }

/-- Embedding of `ts_reset_device`. -/
def ts_reset_device (p : Platform) (w : World) : Int × World :=
  if !p.of_node then (-ENODEV, w)
  else
    let gpio_rst := p.goodix_rst
    if !p.gpio_is_valid gpio_rst then (-ENODEV, w)
    else
      let ret := p.gpio_request gpio_rst
      let w1 := w.emit (Effect.gpio_request gpio_rst)
      if ret < 0 then (ret, w1.emit Effect.dev_err)
      else
        let gpio_int := p.goodix_int
        if !p.gpio_is_valid gpio_int then (-ENODEV, w1)
        else
          let ret := p.gpio_request gpio_int
          let w2 := w1.emit (Effect.gpio_request gpio_int)
          if ret < 0 then (ret, w2.emit Effect.dev_err)
          else
            (0, w2.emits
              [ Effect.gpio_direction_output gpio_rst 0, Effect.mdelay 20,
                Effect.gpio_direction_output gpio_int 0, Effect.mdelay 2,
                Effect.gpio_set_value gpio_rst 1, Effect.mdelay 6,
                Effect.gpio_direction_input gpio_rst,
                Effect.gpio_direction_output gpio_int 1, Effect.mdelay 50,
                Effect.gpio_direction_input gpio_int,
                Effect.gpio_free gpio_rst ])

/-- Embedding of `goodix_request_input_dev` (the compiled `#else` branch). -/
def goodix_request_input_dev (p : Platform) (_ts : goodix_ts_data) (w : World) : Int × World :=
  if !p.devm_input_allocate_device_ok then (-ENOMEM, w.emit Effect.dev_err)
  else
    let w1 := w.emits
      [ Effect.set_evbit EV_SYN, Effect.set_evbit EV_ABS, Effect.set_evbit EV_KEY,
        Effect.set_absbit ABS_X, Effect.set_absbit ABS_Y, Effect.set_absbit ABS_PRESSURE,
        Effect.set_keybit BTN_TOUCH,
        Effect.input_set_abs_params ABS_X 0 800 0 0,
        Effect.input_set_abs_params ABS_Y 0 1280 0 0,
        Effect.input_set_abs_params ABS_PRESSURE 0 200 0 0,
        Effect.input_register_device ]
    let error := p.input_register_device
    if error ≠ 0 then (error, w1.emit Effect.dev_err)
    else (0, w1)

/-- The table `goodix_irq_flags`. -/
def goodix_irq_flags : List Nat :=
  [IRQ_TYPE_EDGE_RISING, IRQ_TYPE_EDGE_FALLING, IRQ_TYPE_LEVEL_LOW, IRQ_TYPE_LEVEL_HIGH]

/-- Uninitialised locals of the functions `goodix_ts_probe` calls. -/
structure ProbeStack where
  test_error : Int
  test : Mem
  version_info : Nat
  version_buf : Mem
  config : Mem

/-- Outcome of `goodix_ts_probe`: its return value, the session it filled in (when
it got as far as allocating one), the value of the local `irq_flags` first computed
from the table (when it got that far), and the world afterwards. -/
structure ProbeResult where
  ret : Int
  ts : Option goodix_ts_data
  table_flags : Option Nat
  world : World

/-- Embedding of `goodix_ts_probe` (the compiled `USE_WORK_DELAY` branch).  The
local `irq_flags` is assigned twice: first from `goodix_irq_flags`, then, inside the
`USE_WORK_DELAY` branch, the constant that is passed to `request_any_context_irq`. -/
def goodix_ts_probe (p : Platform) (client : i2c_client) (st : ProbeStack) (w : World) :
    ProbeResult :=
  if !p.i2c_check_functionality then
    { ret := - ENXIO, ts := none, table_flags := none, world := w.emit Effect.dev_err }
  else if !p.devm_kzalloc_ok then
    { ret := -ENOMEM, ts := none, table_flags := none, world := w }
  else
    let ts : goodix_ts_data :=
      { client := client, abs_x_max := 0, abs_y_max := 0, max_touch_num := 0,
        int_trigger_type := 0 }
    let r := ts_reset_device p w
    if r.1 < 0 then { ret := r.1, ts := some ts, table_flags := none, world := r.2 }
    else
      let t := goodix_i2c_test st.test_error st.test r.2
      if t.1 ≠ 0 then
        { ret := t.1, ts := some ts, table_flags := none, world := t.2.emit Effect.dev_err }
      else
        let v := goodix_read_version st.version_info st.version_buf t.2
        if v.1 ≠ 0 then
          { ret := v.1, ts := some ts, table_flags := none, world := v.2.2.emit Effect.dev_err }
        else
          let c := goodix_read_config ts st.config v.2.2
          let ts := c.1
          let d := goodix_request_input_dev p ts c.2
          if d.1 ≠ 0 then { ret := d.1, ts := some ts, table_flags := none, world := d.2 }
          else
            let irq_flags := goodix_irq_flags.getD ts.int_trigger_type 0 ||| IRQF_ONESHOT
            let table_flags := irq_flags
            let irq_flags := IRQ_TYPE_LEVEL_LOW ||| IRQF_ONESHOT
            let w1 := d.2.emit Effect.INIT_DELAYED_WORK
            let w2 := w1.emit (Effect.request_any_context_irq client.irq irq_flags)
            let error := p.request_any_context_irq
            if error ≠ 0 then
              { ret := error, ts := some ts, table_flags := some table_flags,
                world := w2.emit Effect.dev_err }
            else
              { ret := 0, ts := some ts, table_flags := some table_flags, world := w2 }

/-! ## Observations on traces -/

/-- Calls into the input core that deliver an event to user space. -/
def Effect.is_input : Effect → Bool
  | .input_report_key _ _ => true
  | .input_report_abs _ _ => true
  | .input_sync => true
  | _ => false

/-- The input events of a trace, in order. -/
def input_events (tr : List Effect) : List Effect :=
  tr.filter Effect.is_input

/-- Calls that make up the disable / schedule / acknowledge / re-enable bracket of
an interrupt cycle. -/
def Effect.is_orchestration : Effect → Bool
  | .disable_irq_nosync _ => true
  | .schedule_delayed_work _ => true
  | .i2c_master_send _ => true
  | .enable_irq _ => true
  | _ => false

/-- The orchestration calls of a trace, in order. -/
def orchestration (tr : List Effect) : List Effect :=
  tr.filter Effect.is_orchestration

/-- The interrupt line and flags of an IRQ request, for other calls nothing. -/
def Effect.irq_request : Effect → Option (Int × Nat)
  | .request_any_context_irq irq flags => some (irq, flags)
  | _ => none

/-- The IRQ requests of a trace, in order, as (line, flags). -/
def irq_requests (tr : List Effect) : List (Int × Nat) :=
  tr.filterMap Effect.irq_request

/-- The error kinds of the specification's taxonomy (its section 7). -/
inductive ErrorKind where
  | BusError
  | ResourceUnavailable
  | NotReady
  | ProtocolError
  deriving DecidableEq, Repr

/-- One interrupt cycle: the handler, entered for the session's own interrupt line,
then the deferred work it scheduled. -/
def goodix_cycle (ts : goodix_ts_data) (stack : Mem) (w : World) : World :=
  goodix_work ts stack (goodix_ts_irq_handler ts.client.irq ts w).2

/-! ## Report layouts and concrete inputs -/

/-- The bytes of a list as a byte stream (zero past its end). -/
def bytes (l : List Nat) : Nat → Nat :=
  fun k => l.getD k 0

/-- The single-contact report as the specification lays it out: the status byte
0x81, then an 8-byte record with the slot in the low nibble of record byte 0, X in
record bytes 2-3, Y in bytes 4-5 and the width in bytes 6-7, little-endian.  `hi` is
the high nibble of record byte 0 and `b1` is record byte 1, both left open by the
specification. -/
def spec_single_contact_report (slot x y wd hi b1 : Nat) : List Nat :=
  [0x81, slot + 16 * hi, b1, x % 256, x / 256, y % 256, y / 256, wd % 256, wd / 256]

/-- The single-contact report in the layout the driver reads: the status byte 0x81,
then an 8-byte record with the slot in the low nibble of record byte 0, X in record
bytes 1-2, Y in bytes 3-4 and the width in bytes 5-6, little-endian; `b7` is record
byte 7, which the driver does not read. -/
def single_contact_report (slot x y wd hi b7 : Nat) : List Nat :=
  [0x81, slot + 16 * hi, x % 256, x / 256, y % 256, y / 256, wd % 256, wd / 256, b7]

/-- A session with the contact limit 5 and an 800 x 480 panel on interrupt line 7. -/
def session5 : goodix_ts_data :=
  { client := { addr := 0x5d, irq := 7 }, abs_x_max := 800, abs_y_max := 480,
    max_touch_num := 5, int_trigger_type := 1 }

/-- A world with an empty trace in which every bus transfer returns `ret` and
delivers the bytes `l`, and every `i2c_master_send` returns `sent`. -/
def bus (ret : Int) (l : List Nat) (sent : Int) : World :=
  { xfer := fun _ => { ret := ret, rx := bytes l }, send := fun _ => sent,
    n_xfer := 0, n_send := 0, trace := [] }

/-- A world with an empty trace in which the first bus transfer succeeds and delivers
the bytes `l`, and every later transfer fails with the transport error -6. -/
def bus_second_fails (l : List Nat) : World :=
  { xfer := fun k => if k = 0 then { ret := 2, rx := bytes l } else { ret := -6, rx := bytes [] },
    send := fun _ => 3, n_xfer := 0, n_send := 0, trace := [] }

/-- Some content for an uninitialised stack buffer. -/
def garbage : Mem :=
  fun i => 0xA5 + i

/-- A platform on which every probe-time call succeeds. -/
def platform_ok : Platform :=
  { i2c_check_functionality := true, devm_kzalloc_ok := true, of_node := true,
    goodix_rst := 10, goodix_int := 11, gpio_is_valid := fun g => decide (0 ≤ g),
    gpio_request := fun _ => 0, devm_input_allocate_device_ok := true,
    input_register_device := 0, request_any_context_irq := 0 }

/-- Some content for the uninitialised locals of the probe path. -/
def probe_stack : ProbeStack :=
  { test_error := 0, test := garbage, version_info := 0, version_buf := garbage,
    config := garbage }

/-- A configuration block: 1024 x 600, five contacts, trigger field 0 (rising edge). -/
def config_rising : List Nat :=
  [0x41, 0x00, 0x04, 0x58, 0x02, 0x05, 0x00]

/-- A configuration block with X resolution 1024 and Y resolution 0. -/
def config_y_zero : List Nat :=
  [0x41, 0x00, 0x04, 0x00, 0x00, 0x05, 0x01]

/-- A configuration block: 1024 x 600, five contacts, trigger field 2 (level-low). -/
def config_level_low : List Nat :=
  [0x41, 0x00, 0x04, 0x58, 0x02, 0x05, 0x02]

/-- Index of the bus transfer with which a probe that gets that far reads the
configuration block: it follows one test read (two when the first one failed) and
the version read. -/
def config_read_index (w : World) : Nat :=
  if (w.xfer w.n_xfer).ret = 2 then w.n_xfer + 2 else w.n_xfer + 3

/-! ## Auxiliary facts -/

set_option maxRecDepth 100000 in
theorem byte_bits : ∀ s < 256, ((s &&& 0x80 = 0 ↔ s < 128) ∧ s &&& 0x0f = s % 16) := by
  decide

theorem and_0x80_eq_zero_iff (s : Nat) (h : s < 256) : s &&& 0x80 = 0 ↔ s < 128 :=
  (byte_bits s h).1

theorem and_0x0f_eq_mod (s : Nat) : s &&& 0x0f = s % 16 :=
  Nat.and_pow_two_sub_one_eq_mod s 4

theorem goodix_i2c_read_ret_ok (w : World) (reg : Nat) (buf : Mem) (off len : Nat)
    (h : (w.xfer w.n_xfer).ret = 2) : (goodix_i2c_read w reg buf off len).ret = 0 := by
  simp [goodix_i2c_read, h]

theorem goodix_i2c_read_ret_nonpos (w : World) (reg : Nat) (buf : Mem) (off len : Nat) :
    (goodix_i2c_read w reg buf off len).ret ≤ 0 := by
  simp only [goodix_i2c_read, EIO]
  split_ifs <;> omega

theorem goodix_i2c_read_ret_eq_zero_iff (w : World) (reg : Nat) (buf : Mem) (off len : Nat) :
    (goodix_i2c_read w reg buf off len).ret = 0 ↔ (w.xfer w.n_xfer).ret = 2 := by
  simp only [goodix_i2c_read, EIO]
  split_ifs with h1 h2
  · constructor <;> intro h <;> omega
  · constructor
    · intro h; exact absurd h (by decide)
    · intro h; exact absurd h h2
  · have h3 : (w.xfer w.n_xfer).ret = 2 := not_not.mp h2
    simp [h3]

/-- The status byte the decoder sees after a first read. -/
theorem first_read_status (w : World) (data : Mem) :
    (goodix_i2c_read w GOODIX_READ_COOR_ADDR data 0 (GOODIX_CONTACT_SIZE + 1)).data 0
      = (w.xfer w.n_xfer).rx 0 % 256 := by
  simp [goodix_i2c_read, GOODIX_CONTACT_SIZE]

theorem first_read_trace (w : World) (data : Mem) :
    (goodix_i2c_read w GOODIX_READ_COOR_ADDR data 0 (GOODIX_CONTACT_SIZE + 1)).world.trace
      = w.trace ++ [Effect.i2c_transfer GOODIX_READ_COOR_ADDR 0 9] := by
  simp [goodix_i2c_read, GOODIX_CONTACT_SIZE, GOODIX_READ_COOR_ADDR]

/-- A report that is read but whose status byte fails one of the three checks is
rejected with `-EPROTO` right after the first read. -/
theorem read_input_report_reject (ts : goodix_ts_data) (data : Mem) (w : World)
    (hfirst : (w.xfer w.n_xfer).ret = 2)
    (hbad : (w.xfer w.n_xfer).rx 0 % 256 < 128 ∨
            ts.max_touch_num < (w.xfer w.n_xfer).rx 0 % 256 % 16) :
    goodix_ts_read_input_report ts data w =
      { goodix_i2c_read w GOODIX_READ_COOR_ADDR data 0 (GOODIX_CONTACT_SIZE + 1) with
        ret := - EPROTO } := by
  have hlt : (w.xfer w.n_xfer).rx 0 % 256 < 256 := Nat.mod_lt _ (by decide)
  simp only [goodix_ts_read_input_report]
  rw [if_neg (by simp [goodix_i2c_read_ret_ok _ _ _ _ _ hfirst])]
  simp only [first_read_status, and_0x0f_eq_mod]
  split_ifs with h1 h2 h3 h4 <;>
    first
    | rfl
    | (exfalso
       rw [and_0x80_eq_zero_iff _ hlt] at h2
       omega)

/-- When the first read fails the decoder returns its (negative) status. -/
theorem read_input_report_first_fail (ts : goodix_ts_data) (data : Mem) (w : World)
    (hfirst : (w.xfer w.n_xfer).ret ≠ 2) :
    (goodix_ts_read_input_report ts data w).ret < 0 ∧
    (goodix_ts_read_input_report ts data w).world.trace
      = w.trace ++ [Effect.i2c_transfer GOODIX_READ_COOR_ADDR 0 9, Effect.dev_err] := by
  have hne : (goodix_i2c_read w GOODIX_READ_COOR_ADDR data 0 (GOODIX_CONTACT_SIZE + 1)).ret ≠ 0 := by
    rw [Ne, goodix_i2c_read_ret_eq_zero_iff]; exact hfirst
  have hle := goodix_i2c_read_ret_nonpos w GOODIX_READ_COOR_ADDR data 0 (GOODIX_CONTACT_SIZE + 1)
  simp only [goodix_ts_read_input_report]
  rw [if_pos hne]
  refine ⟨by dsimp only; omega, ?_⟩
  simp [World.emit, first_read_trace]

/-- The decoder returns 1 only on the path with one successful read and count 1. -/
theorem read_input_report_eq_one (ts : goodix_ts_data) (data : Mem) (w : World)
    (h : (goodix_ts_read_input_report ts data w).ret = 1) :
    goodix_ts_read_input_report ts data w =
      { goodix_i2c_read w GOODIX_READ_COOR_ADDR data 0 (GOODIX_CONTACT_SIZE + 1) with ret := 1 } := by
  have hle := goodix_i2c_read_ret_nonpos w GOODIX_READ_COOR_ADDR data 0 (GOODIX_CONTACT_SIZE + 1)
  revert h
  simp only [goodix_ts_read_input_report]
  split_ifs with h0 h1 h2 h3 h4 h5
  · intro h; dsimp only at h; omega
  · intro h; simp only [EPROTO] at h; omega
  · intro h; simp only [EPROTO] at h; omega
  · intro h; simp only [EPROTO] at h; omega
  · intro h
    have := le_of_eq_of_le h.symm (goodix_i2c_read_ret_nonpos _ _ _ _ _)
    omega
  · intro h; dsimp only at h; omega
  · intro h; dsimp only at h; rw [h]

/-- What the decoder adds to the trace: one read and an error log, one read, or two reads
with the second one inside the negotiated limit. -/
theorem read_input_report_trace (ts : goodix_ts_data) (data : Mem) (w : World) :
    (goodix_ts_read_input_report ts data w).world.trace
        = w.trace ++ [Effect.i2c_transfer GOODIX_READ_COOR_ADDR 0 9, Effect.dev_err] ∨
    (goodix_ts_read_input_report ts data w).world.trace
        = w.trace ++ [Effect.i2c_transfer GOODIX_READ_COOR_ADDR 0 9] ∨
    ∃ n, 1 < n ∧ n ≤ ts.max_touch_num ∧
      (goodix_ts_read_input_report ts data w).world.trace
        = w.trace ++ [Effect.i2c_transfer GOODIX_READ_COOR_ADDR 0 9,
                      Effect.i2c_transfer (GOODIX_READ_COOR_ADDR + 9) 9 (8 * (n - 1))] := by
  simp only [goodix_ts_read_input_report]
  split_ifs with h0 h1 h2 h3 h4 h5
  · left; simp [World.emit, first_read_trace]
  · right; left; simp [first_read_trace]
  · right; left; simp [first_read_trace]
  · right; left; simp [first_read_trace]
  · right; right
    refine ⟨_, h4, not_lt.mp h3, ?_⟩
    simp [goodix_i2c_read, GOODIX_CONTACT_SIZE, GOODIX_READ_COOR_ADDR]
  · right; right
    refine ⟨_, h4, not_lt.mp h3, ?_⟩
    simp [goodix_i2c_read, GOODIX_CONTACT_SIZE, GOODIX_READ_COOR_ADDR]
  · right; left; simp [first_read_trace]

theorem input_events_append (a b : List Effect) :
    input_events (a ++ b) = input_events a ++ input_events b := by
  simp [input_events]

/-- The decoder delivers no input event. -/
theorem read_input_report_input_events (ts : goodix_ts_data) (data : Mem) (w : World) :
    input_events (goodix_ts_read_input_report ts data w).world.trace = input_events w.trace := by
  rcases read_input_report_trace ts data w with h | h | ⟨n, _, _, h⟩ <;>
    rw [h, input_events_append] <;> simp [input_events, Effect.is_input]

/-- A report that is read and passes the three status checks decodes to the low
nibble of its status byte, provided the second read, when issued, succeeds. -/
theorem read_input_report_accept (ts : goodix_ts_data) (data : Mem) (w : World) (s : Nat)
    (hs : s < 256)
    (hfirst : (w.xfer w.n_xfer).ret = 2)
    (hstatus : (w.xfer w.n_xfer).rx 0 = s)
    (hbit7 : 128 ≤ s)
    (hn : s % 16 ≤ ts.max_touch_num)
    (hsecond : 1 < s % 16 → (w.xfer (w.n_xfer + 1)).ret = 2) :
    (goodix_ts_read_input_report ts data w).ret = ((s % 16 : Nat) : Int) := by
  have h80 : ¬ (s &&& 0x80 = 0) := by
    rw [and_0x80_eq_zero_iff s hs]; omega
  have h0 : s ≠ 0 := by omega
  have hmod : s % 256 = s := Nat.mod_eq_of_lt hs
  simp only [goodix_ts_read_input_report]
  rw [if_neg (by simp [goodix_i2c_read_ret_ok _ _ _ _ _ hfirst])]
  simp only [first_read_status, hstatus, hmod, and_0x0f_eq_mod]
  rw [if_neg h0, if_neg h80, if_neg (by omega)]
  split_ifs with h1 h2
  · exfalso
    apply h2
    apply goodix_i2c_read_ret_ok
    simpa [goodix_i2c_read] using hsecond h1
  · rfl
  · rfl

/-! ## The report decoder -/

/-- C2: a report whose status byte `s` has bit 7 set and a low nibble within the
negotiated limit decodes, when the bus reads issued succeed, to exactly that low
nibble (also when it is 0). -/
theorem read_input_report_count (ts : goodix_ts_data) (data : Mem) (w : World) (s : Nat)
    (hs : s < 256)
    (hfirst : (w.xfer w.n_xfer).ret = 2)
    (hstatus : (w.xfer w.n_xfer).rx 0 = s)
    (hbit7 : 128 ≤ s)
    (hn : s % 16 ≤ ts.max_touch_num)
    (hsecond : 1 < s % 16 → (w.xfer (w.n_xfer + 1)).ret = 2) :
    (goodix_ts_read_input_report ts data w).ret = ((s % 16 : Nat) : Int) :=
  read_input_report_accept ts data w s hs hfirst hstatus hbit7 hn hsecond

/-- C2 at the status bytes 0x80 (count 0) and 0x83 (count 3) with the limit 5. -/
theorem read_input_report_count_witness :
    (goodix_ts_read_input_report session5 garbage (bus 2 [0x80] 3)).ret = ((0x80 % 16 : Nat) : Int) ∧
    (goodix_ts_read_input_report session5 garbage (bus 2 [0x83] 3)).ret = ((0x83 % 16 : Nat) : Int) :=
  ⟨read_input_report_count session5 garbage (bus 2 [0x80] 3) 0x80 (by decide) rfl rfl
      (by decide) (by decide) (fun _ => rfl),
   read_input_report_count session5 garbage (bus 2 [0x83] 3) 0x83 (by decide) rfl rfl
      (by decide) (by decide) (fun _ => rfl)⟩

/-- C3: a report whose status byte `s` has a low nibble above the negotiated limit is
rejected with `-EPROTO` (the protocol error), whatever its other bits and the rest
of the buffer hold: no count is returned and the first read stays the only one. -/
theorem read_input_report_over_limit (ts : goodix_ts_data) (data : Mem) (w : World) (s : Nat)
    (hs : s < 256)
    (hfirst : (w.xfer w.n_xfer).ret = 2)
    (hstatus : (w.xfer w.n_xfer).rx 0 = s)
    (hover : ts.max_touch_num < s % 16) :
    (goodix_ts_read_input_report ts data w).ret = - EPROTO ∧
    (goodix_ts_read_input_report ts data w).ret < 0 ∧
    (goodix_ts_read_input_report ts data w).world.n_xfer = w.n_xfer + 1 ∧
    (goodix_ts_read_input_report ts data w).world.trace
      = w.trace ++ [Effect.i2c_transfer GOODIX_READ_COOR_ADDR 0 9] := by
  have hmod : s % 256 = s := Nat.mod_eq_of_lt hs
  rw [read_input_report_reject ts data w hfirst (Or.inr (by rw [hstatus, hmod]; exact hover))]
  refine ⟨rfl, by dsimp only [EPROTO]; omega, ?_, ?_⟩
  · simp [goodix_i2c_read]
  · exact first_read_trace w data

/-- C3 at the status bytes 0x86 and 0x06 with the limit 5. -/
theorem read_input_report_over_limit_witness :
    (goodix_ts_read_input_report session5 garbage (bus 2 [0x86] 3)).ret = - EPROTO ∧
    (goodix_ts_read_input_report session5 garbage (bus 2 [0x06] 3)).ret = - EPROTO :=
  ⟨(read_input_report_over_limit session5 garbage (bus 2 [0x86] 3) 0x86 (by decide) rfl rfl
      (by decide)).1,
   (read_input_report_over_limit session5 garbage (bus 2 [0x06] 3) 0x06 (by decide) rfl rfl
      (by decide)).1⟩

/-- C4 as stated fails: the status byte 0x00 and the over-limit status byte 0x86 make
the decoder return the same value `-EPROTO`, so no reading of its return value can
report `NotReady` for the first and `ProtocolError` for the second. -/
theorem not_ready_indistinguishable :
    (goodix_ts_read_input_report session5 garbage (bus 2 [0x00] 3)).ret = - EPROTO ∧
    (goodix_ts_read_input_report session5 garbage (bus 2 [0x86] 3)).ret = - EPROTO ∧
    ¬ ∃ kind : Int → ErrorKind,
        kind (goodix_ts_read_input_report session5 garbage (bus 2 [0x00] 3)).ret
          = ErrorKind.NotReady ∧
        kind (goodix_ts_read_input_report session5 garbage (bus 2 [0x86] 3)).ret
          = ErrorKind.ProtocolError := by
  have h0 : (goodix_ts_read_input_report session5 garbage (bus 2 [0x00] 3)).ret = - EPROTO := by
    decide
  have h1 : (goodix_ts_read_input_report session5 garbage (bus 2 [0x86] 3)).ret = - EPROTO := by
    decide
  refine ⟨h0, h1, ?_⟩
  rintro ⟨kind, hk0, hk1⟩
  rw [h0] at hk0
  rw [h1, hk0] at hk1
  exact absurd hk1 (by decide)

/-- C4 (amended): a report whose status byte `s` has bit 7 clear is rejected with
`-EPROTO`, the value also returned for an over-limit count, for every limit and
every content of the remaining bytes, and the first read stays the only one. -/
theorem read_input_report_bit7_clear (ts : goodix_ts_data) (data : Mem) (w : World) (s : Nat)
    (hs : s < 128)
    (hfirst : (w.xfer w.n_xfer).ret = 2)
    (hstatus : (w.xfer w.n_xfer).rx 0 = s) :
    (goodix_ts_read_input_report ts data w).ret = - EPROTO ∧
    (goodix_ts_read_input_report ts data w).world.n_xfer = w.n_xfer + 1 ∧
    (goodix_ts_read_input_report ts data w).world.trace
      = w.trace ++ [Effect.i2c_transfer GOODIX_READ_COOR_ADDR 0 9] := by
  have hmod : s % 256 = s := Nat.mod_eq_of_lt (by omega)
  rw [read_input_report_reject ts data w hfirst (Or.inl (by rw [hstatus, hmod]; exact hs))]
  refine ⟨rfl, ?_, ?_⟩
  · simp [goodix_i2c_read]
  · exact first_read_trace w data

/-- C4 (amended) at the status bytes 0x00 and 0x01 with the limit 5. -/
theorem read_input_report_bit7_clear_witness :
    (goodix_ts_read_input_report session5 garbage (bus 2 [0x00] 3)).ret = - EPROTO ∧
    (goodix_ts_read_input_report session5 garbage (bus 2 [0x01, 2, 100] 3)).ret = - EPROTO :=
  ⟨(read_input_report_bit7_clear session5 garbage (bus 2 [0x00] 3) 0x00 (by decide) rfl rfl).1,
   (read_input_report_bit7_clear session5 garbage (bus 2 [0x01, 2, 100] 3) 0x01 (by decide)
      rfl rfl).1⟩

/-! ## The event emitter -/

theorem single_touch_trace (ts : goodix_ts_data) (stack : Mem) (w : World)
    (h : (goodix_ts_read_input_report ts stack w).ret = 1) :
    (goodix_process_events ts stack w).trace =
      w.trace ++
        [ Effect.i2c_transfer GOODIX_READ_COOR_ADDR 0 9,
          Effect.input_report_key BTN_TOUCH 1,
          Effect.input_report_abs ABS_X
            (goodix_ts_report_touch_locals (goodix_ts_read_input_report ts stack w).data 0).input_y,
          Effect.input_report_abs ABS_Y
            (goodix_ts_report_touch_locals (goodix_ts_read_input_report ts stack w).data 0).input_x,
          Effect.input_report_abs ABS_PRESSURE 200,
          Effect.input_sync ] := by
  have hw : (goodix_ts_read_input_report ts stack w).world.trace
      = w.trace ++ [Effect.i2c_transfer GOODIX_READ_COOR_ADDR 0 9] := by
    rw [read_input_report_eq_one ts stack w h]
    exact first_read_trace w stack
  simp only [goodix_process_events]
  rw [if_pos h]
  simp [List.range_succ, goodix_ts_report_touch, World.emit, hw, GOODIX_CONTACT_SIZE]

/-- The first nine bytes the decoder leaves in the report buffer are those of the
first read, on every path. -/
theorem read_input_report_data_first (ts : goodix_ts_data) (stack : Mem) (w : World)
    (i : Nat) (hi : i < 9) :
    (goodix_ts_read_input_report ts stack w).data i = (w.xfer w.n_xfer).rx i % 256 := by
  have h9 : ¬ (9 ≤ i) := by omega
  simp only [goodix_ts_read_input_report]
  split_ifs <;> simp [goodix_i2c_read, GOODIX_CONTACT_SIZE, hi, h9]

/-- C5: when the report decodes to the count 1, `goodix_process_events` makes, after
the one bus read, exactly the calls touch-down, ABS_X = the contact's Y field,
ABS_Y = the contact's X field, pressure 200, sync; the X and Y fields are the
little-endian values at report bytes 2-3 and 4-5. -/
theorem process_events_single_touch (ts : goodix_ts_data) (stack : Mem) (w : World)
    (h : (goodix_ts_read_input_report ts stack w).ret = 1) :
    (goodix_process_events ts stack w).trace =
      w.trace ++
        [ Effect.i2c_transfer GOODIX_READ_COOR_ADDR 0 9,
          Effect.input_report_key BTN_TOUCH 1,
          Effect.input_report_abs ABS_X
            (goodix_ts_report_touch_locals (goodix_ts_read_input_report ts stack w).data 0).input_y,
          Effect.input_report_abs ABS_Y
            (goodix_ts_report_touch_locals (goodix_ts_read_input_report ts stack w).data 0).input_x,
          Effect.input_report_abs ABS_PRESSURE 200,
          Effect.input_sync ] ∧
    (goodix_ts_report_touch_locals (goodix_ts_read_input_report ts stack w).data 0).input_x
      = (((w.xfer w.n_xfer).rx 2 % 256 + 256 * ((w.xfer w.n_xfer).rx 3 % 256) : Nat) : Int) ∧
    (goodix_ts_report_touch_locals (goodix_ts_read_input_report ts stack w).data 0).input_y
      = (((w.xfer w.n_xfer).rx 4 % 256 + 256 * ((w.xfer w.n_xfer).rx 5 % 256) : Nat) : Int) := by
  refine ⟨single_touch_trace ts stack w h, ?_, ?_⟩ <;>
    simp only [goodix_ts_report_touch_locals, get_unaligned_le16, Nat.zero_add] <;>
    rw [read_input_report_data_first ts stack w _ (by decide),
        read_input_report_data_first ts stack w _ (by decide)]

/-- C5 on a report with the X field 0x1234 and the Y field 0xABCD. -/
theorem process_events_single_touch_witness :
    (goodix_process_events session5 garbage
        (bus 2 [0x81, 0x02, 0x34, 0x12, 0xCD, 0xAB, 0x32, 0x00, 0x00] 3)).trace =
      [ Effect.i2c_transfer GOODIX_READ_COOR_ADDR 0 9,
        Effect.input_report_key BTN_TOUCH 1,
        Effect.input_report_abs ABS_X 0xABCD,
        Effect.input_report_abs ABS_Y 0x1234,
        Effect.input_report_abs ABS_PRESSURE 200,
        Effect.input_sync ] :=
  (process_events_single_touch session5 garbage
    (bus 2 [0x81, 0x02, 0x34, 0x12, 0xCD, 0xAB, 0x32, 0x00, 0x00] 3) (by decide)).1

/-- C6: when the decoder returns anything but the count 1 (another count, or an
error), the input events of the cycle are exactly touch-up, pressure 0, sync, with
no position event. -/
theorem process_events_release (ts : goodix_ts_data) (stack : Mem) (w : World)
    (h : (goodix_ts_read_input_report ts stack w).ret ≠ 1) :
    input_events (goodix_process_events ts stack w).trace =
      input_events w.trace ++
        [ Effect.input_report_key BTN_TOUCH 0,
          Effect.input_report_abs ABS_PRESSURE 0,
          Effect.input_sync ] := by
  simp only [goodix_process_events]
  rw [if_neg h]
  simp only [World.emit, List.append_assoc, input_events_append,
    read_input_report_input_events]
  simp [input_events, Effect.is_input]

/-- C6 on the counts 0 and 2, a status byte without bit 7, an over-limit count, a
failed first read and a failed second read. -/
theorem process_events_release_witness :
    (∀ l ∈ [[0x80], [0x82], [0x00], [0x86]],
      input_events (goodix_process_events session5 garbage (bus 2 l 3)).trace =
        input_events (bus 2 l 3).trace ++
          [ Effect.input_report_key BTN_TOUCH 0, Effect.input_report_abs ABS_PRESSURE 0,
            Effect.input_sync ]) ∧
    input_events (goodix_process_events session5 garbage (bus (-5) [0x81] 3)).trace =
      input_events (bus (-5) [0x81] 3).trace ++
        [ Effect.input_report_key BTN_TOUCH 0, Effect.input_report_abs ABS_PRESSURE 0,
          Effect.input_sync ] ∧
    input_events (goodix_process_events session5 garbage (bus_second_fails [0x82])).trace =
      input_events (bus_second_fails [0x82]).trace ++
        [ Effect.input_report_key BTN_TOUCH 0, Effect.input_report_abs ABS_PRESSURE 0,
          Effect.input_sync ] :=
  ⟨fun l hl => process_events_release session5 garbage (bus 2 l 3) (by
      simp only [List.mem_cons, List.mem_singleton, List.not_mem_nil, or_false] at hl
      rcases hl with rfl | rfl | rfl | rfl <;> decide),
   process_events_release session5 garbage (bus (-5) [0x81] 3) (by decide),
   process_events_release session5 garbage (bus_second_fails [0x82]) (by decide)⟩

/-! ## The contact layout -/

/-- C1 as stated fails: on the report laid out as the specification says (slot 2,
x = 100, y = 200, w = 50; X in record bytes 2-3) the decoder returns 1 but the
driver decodes x = 25600, y = 51200, w = 12800 and emits ABS_X = 51200,
ABS_Y = 25600. -/
theorem spec_layout_not_decoded :
    (goodix_ts_read_input_report session5 garbage
        (bus 2 (spec_single_contact_report 2 100 200 50 0 0) 3)).ret = 1 ∧
    goodix_ts_report_touch_locals
        (goodix_ts_read_input_report session5 garbage
          (bus 2 (spec_single_contact_report 2 100 200 50 0 0) 3)).data 0
      = { id := 2, input_x := 25600, input_y := 51200, input_w := 12800 } ∧
    (goodix_process_events session5 garbage
        (bus 2 (spec_single_contact_report 2 100 200 50 0 0) 3)).trace =
      [ Effect.i2c_transfer GOODIX_READ_COOR_ADDR 0 9,
        Effect.input_report_key BTN_TOUCH 1,
        Effect.input_report_abs ABS_X 51200,
        Effect.input_report_abs ABS_Y 25600,
        Effect.input_report_abs ABS_PRESSURE 200,
        Effect.input_sync ] :=
  ⟨rfl, rfl, rfl⟩

/-- Whatever the specification's layout leaves open (the high nibble of record byte 0
and record byte 1), the X field 100 placed in record bytes 2-3 is not decoded as 100. -/
theorem open_bytes_do_not_rescue_spec_layout (hi b1 : Nat) :
    (goodix_ts_report_touch_locals
        (goodix_ts_read_input_report session5 garbage
          (bus 2 (spec_single_contact_report 2 100 200 50 hi b1) 3)).data 0).input_x ≠ 100 := by
  intro h
  simp only [goodix_ts_report_touch_locals, get_unaligned_le16, Nat.zero_add] at h
  rw [read_input_report_data_first _ _ _ 2 (by decide),
    read_input_report_data_first _ _ _ 3 (by decide)] at h
  simp only [bus, bytes, spec_single_contact_report, List.getD_cons_zero,
    List.getD_cons_succ] at h
  omega

/-- C1 (amended): a single-contact report laid out with the slot in the low nibble
of record byte 0, X in record bytes 1-2, Y in bytes 3-4 and the width in bytes 5-6
round-trips: for a session whose limit is at least 1 the decoder returns 1, the
driver decodes id = slot, x, y, w, and emits ABS_X = y, ABS_Y = x, pressure 200. -/
theorem contact_layout_roundtrip (ts : goodix_ts_data) (stack : Mem) (w : World)
    (slot x y wd hi b7 : Nat)
    (hslot : slot < 16) (hx : x < 65536) (hy : y < 65536) (hwd : wd < 65536)
    (hlimit : 1 ≤ ts.max_touch_num)
    (hfirst : (w.xfer w.n_xfer).ret = 2)
    (hreport : (w.xfer w.n_xfer).rx = bytes (single_contact_report slot x y wd hi b7)) :
    (goodix_ts_read_input_report ts stack w).ret = 1 ∧
    goodix_ts_report_touch_locals (goodix_ts_read_input_report ts stack w).data 0
      = { id := (slot : Int), input_x := (x : Int), input_y := (y : Int),
          input_w := (wd : Int) } ∧
    (goodix_process_events ts stack w).trace =
      w.trace ++
        [ Effect.i2c_transfer GOODIX_READ_COOR_ADDR 0 9,
          Effect.input_report_key BTN_TOUCH 1,
          Effect.input_report_abs ABS_X (y : Int),
          Effect.input_report_abs ABS_Y (x : Int),
          Effect.input_report_abs ABS_PRESSURE 200,
          Effect.input_sync ] := by
  have hret : (goodix_ts_read_input_report ts stack w).ret = 1 :=
    read_input_report_accept ts stack w 0x81 (by decide) hfirst (by rw [hreport]; rfl)
      (by decide) (le_trans (by decide) hlimit) (fun h => absurd h (by decide))
  have hd := read_input_report_data_first ts stack w
  have hloc : goodix_ts_report_touch_locals (goodix_ts_read_input_report ts stack w).data 0
      = { id := (slot : Int), input_x := (x : Int), input_y := (y : Int),
          input_w := (wd : Int) } := by
    simp only [goodix_ts_report_touch_locals, get_unaligned_le16, Nat.zero_add, and_0x0f_eq_mod]
    rw [hd 1 (by decide), hd 2 (by decide), hd 3 (by decide), hd 4 (by decide),
      hd 5 (by decide), hd 6 (by decide), hd 7 (by decide)]
    simp only [hreport, bytes, single_contact_report, List.getD_cons_zero, List.getD_cons_succ]
    congr 1 <;> congr 1 <;> omega
  refine ⟨hret, hloc, ?_⟩
  rw [single_touch_trace ts stack w hret, hloc]

/-- C1 (amended) at slot 2, x = 100, y = 200, w = 50. -/
theorem contact_layout_roundtrip_witness :
    (goodix_ts_read_input_report session5 garbage
        (bus 2 (single_contact_report 2 100 200 50 0 0) 3)).ret = 1 ∧
    goodix_ts_report_touch_locals
        (goodix_ts_read_input_report session5 garbage
          (bus 2 (single_contact_report 2 100 200 50 0 0) 3)).data 0
      = { id := 2, input_x := 100, input_y := 200, input_w := 50 } ∧
    (goodix_process_events session5 garbage
        (bus 2 (single_contact_report 2 100 200 50 0 0) 3)).trace =
      [ Effect.i2c_transfer GOODIX_READ_COOR_ADDR 0 9,
        Effect.input_report_key BTN_TOUCH 1,
        Effect.input_report_abs ABS_X 200,
        Effect.input_report_abs ABS_Y 100,
        Effect.input_report_abs ABS_PRESSURE 200,
        Effect.input_sync ] :=
  contact_layout_roundtrip session5 garbage (bus 2 (single_contact_report 2 100 200 50 0 0) 3)
    2 100 200 50 0 0 (by decide) (by decide) (by decide) (by decide) (by decide) rfl rfl

/-! ## The configuration reader -/

/-- C7 as stated fails: a configuration block with the X resolution 1024 and the Y
resolution 0 leaves `abs_x_max` at the default 800, not at the non-zero 1024 read
from the block. -/
theorem read_config_drops_valid_x :
    get_unaligned_le16 (bytes config_y_zero) RESOLUTION_LOC = 1024 ∧
    get_unaligned_le16 (bytes config_y_zero) (RESOLUTION_LOC + 2) = 0 ∧
    (goodix_read_config session5 garbage (bus 2 config_y_zero 3)).1.abs_x_max = 800 ∧
    (goodix_read_config session5 garbage (bus 2 config_y_zero 3)).1.abs_y_max = 480 :=
  ⟨rfl, rfl, rfl, rfl⟩

/-- The configuration reader always leaves the contact limit at the compiled default. -/
theorem read_config_max_touch_num (ts : goodix_ts_data) (stack : Mem) (w : World) :
    (goodix_read_config ts stack w).1.max_touch_num = GOODIX_MAX_CONTACTS := by
  simp only [goodix_read_config]
  split_ifs <;> rfl

/-- C7 (amended): after a successful read of the configuration block, with `cx` and
`cy` the little-endian values at offsets 1-2 and 3-4 and `n` the low nibble at
offset 5: when all three are non-zero the resolution is kept (`abs_x_max = cx`,
`abs_y_max = cy`); when any one of them is zero both resolution fields become the
defaults 800 and 480. -/
theorem read_config_resolution (ts : goodix_ts_data) (stack : Mem) (w : World)
    (cx cy n : Nat)
    (hread : (w.xfer w.n_xfer).ret = 2)
    (hcx : cx = (w.xfer w.n_xfer).rx 1 % 256 + 256 * ((w.xfer w.n_xfer).rx 2 % 256))
    (hcy : cy = (w.xfer w.n_xfer).rx 3 % 256 + 256 * ((w.xfer w.n_xfer).rx 4 % 256))
    (hn : n = (w.xfer w.n_xfer).rx 5 % 256 % 16) :
    (cx ≠ 0 ∧ cy ≠ 0 ∧ n ≠ 0 →
      (goodix_read_config ts stack w).1.abs_x_max = (cx : Int) ∧
      (goodix_read_config ts stack w).1.abs_y_max = (cy : Int)) ∧
    (cx = 0 ∨ cy = 0 ∨ n = 0 →
      (goodix_read_config ts stack w).1.abs_x_max = (GOODIX_MAX_WIDTH : Int) ∧
      (goodix_read_config ts stack w).1.abs_y_max = (GOODIX_MAX_HEIGHT : Int)) := by
  have hd : ∀ i, i < 240 →
      (goodix_i2c_read w GOODIX_REG_CONFIG_DATA stack 0 GOODIX_CONFIG_MAX_LENGTH).data i
        = (w.xfer w.n_xfer).rx i % 256 := fun i hi => by
    simp [goodix_i2c_read, GOODIX_CONFIG_MAX_LENGTH, hi]
  simp only [goodix_read_config]
  rw [if_neg (by simp [goodix_i2c_read_ret_ok _ _ _ _ _ hread])]
  simp only [get_unaligned_le16, RESOLUTION_LOC, MAX_CONTACTS_LOC, and_0x0f_eq_mod,
    hd 1 (by decide), hd 2 (by decide), hd 3 (by decide), hd 4 (by decide), hd 5 (by decide),
    ← hcx, ← hcy, ← hn, Nat.cast_eq_zero]
  constructor
  · rintro ⟨h1, h2, h3⟩
    rw [if_neg (by simp [h1, h2, h3])]
    exact ⟨rfl, rfl⟩
  · intro h
    rw [if_pos h]
    exact ⟨rfl, rfl⟩

/-- C7 (amended) on a valid block (1024 x 600, five contacts) and on a block whose Y
resolution is zero. -/
theorem read_config_resolution_witness :
    ((goodix_read_config session5 garbage (bus 2 config_rising 3)).1.abs_x_max = 1024 ∧
     (goodix_read_config session5 garbage (bus 2 config_rising 3)).1.abs_y_max = 600) ∧
    ((goodix_read_config session5 garbage (bus 2 config_y_zero 3)).1.abs_x_max = 800 ∧
     (goodix_read_config session5 garbage (bus 2 config_y_zero 3)).1.abs_y_max = 480) :=
  ⟨(read_config_resolution session5 garbage (bus 2 config_rising 3) 1024 600 5 rfl rfl rfl rfl).1
      (by decide),
   (read_config_resolution session5 garbage (bus 2 config_y_zero 3) 1024 0 5 rfl rfl rfl rfl).2
      (by decide)⟩

/-! ## The interrupt cycle -/

theorem orchestration_append (a b : List Effect) :
    orchestration (a ++ b) = orchestration a ++ orchestration b := by
  simp [orchestration]

/-- The decoder makes no orchestration call. -/
theorem read_input_report_orchestration (ts : goodix_ts_data) (data : Mem) (w : World) :
    orchestration (goodix_ts_read_input_report ts data w).world.trace = orchestration w.trace := by
  rcases read_input_report_trace ts data w with h | h | ⟨n, _, _, h⟩ <;>
    rw [h, orchestration_append] <;> simp [orchestration, Effect.is_orchestration]

/-- Reading and reporting a touch frame makes no orchestration call. -/
theorem process_events_orchestration (ts : goodix_ts_data) (stack : Mem) (w : World) :
    orchestration (goodix_process_events ts stack w).trace = orchestration w.trace := by
  simp only [goodix_process_events]
  split_ifs <;>
    simp [List.range_succ, goodix_ts_report_touch, World.emit, orchestration_append,
      read_input_report_orchestration] <;>
    simp [orchestration, Effect.is_orchestration]

/-- C9: the handler disables the interrupt line and then schedules the deferred work
with the 15 ms delay; `goodix_work`, whatever the bus does (decode success or
failure, failed report read, failed acknowledge write), sends the acknowledge
command 0x81 0x4E 0x00 once and then re-enables the line once, as its last call. -/
theorem cycle_bracket (ts : goodix_ts_data) (stack : Mem) (w : World) (irq : Int) :
    (goodix_ts_irq_handler irq ts w).2.trace
      = w.trace ++ [Effect.disable_irq_nosync irq, Effect.schedule_delayed_work 15] ∧
    orchestration (goodix_work ts stack w).trace
      = orchestration w.trace ++
          [Effect.i2c_master_send [0x81, 0x4E, 0x00], Effect.enable_irq ts.client.irq] ∧
    (goodix_work ts stack w).trace.getLast? = some (Effect.enable_irq ts.client.irq) ∧
    orchestration (goodix_cycle ts stack w).trace
      = orchestration w.trace ++
          [ Effect.disable_irq_nosync ts.client.irq, Effect.schedule_delayed_work 15,
            Effect.i2c_master_send [0x81, 0x4E, 0x00], Effect.enable_irq ts.client.irq ] := by
  have hend : end_cmd = [0x81, 0x4E, 0x00] := by decide
  have hwork : ∀ w0 : World, orchestration (goodix_work ts stack w0).trace
      = orchestration w0.trace ++
          [Effect.i2c_master_send [0x81, 0x4E, 0x00], Effect.enable_irq ts.client.irq] := by
    intro w0
    simp only [goodix_work, i2c_master_send, hend]
    split_ifs <;>
      simp [World.emit, orchestration_append, process_events_orchestration] <;>
      simp [orchestration, Effect.is_orchestration]
  refine ⟨?_, hwork w, ?_, ?_⟩
  · simp [goodix_ts_irq_handler, World.emit]
  · simp only [goodix_work]
    split_ifs <;> simp [World.emit]
  · rw [goodix_cycle, hwork]
    simp [goodix_ts_irq_handler, World.emit, orchestration_append]
    simp [orchestration, Effect.is_orchestration]

/-! ## Buffer bounds -/

theorem irq_requests_append (a b : List Effect) :
    irq_requests (a ++ b) = irq_requests a ++ irq_requests b := by
  simp [irq_requests]

theorem goodix_i2c_read_irq_requests (w : World) (reg : Nat) (buf : Mem) (off len : Nat) :
    irq_requests (goodix_i2c_read w reg buf off len).world.trace = irq_requests w.trace := by
  simp [goodix_i2c_read, irq_requests, Effect.irq_request]

theorem ts_reset_device_irq_requests (p : Platform) (w : World) :
    irq_requests (ts_reset_device p w).2.trace = irq_requests w.trace := by
  simp only [ts_reset_device]
  split_ifs <;> simp [World.emit, World.emits, irq_requests, Effect.irq_request]

theorem goodix_i2c_test_loop_irq_requests (n : Nat) (test : Mem) (error : Int) (w : World) :
    irq_requests (goodix_i2c_test_loop test n error w).2.trace = irq_requests w.trace := by
  induction n generalizing test error w with
  | zero => rfl
  | succ k ih =>
    simp only [goodix_i2c_test_loop]
    split_ifs
    · exact goodix_i2c_read_irq_requests w _ test _ _
    · rw [ih]
      simp [World.emit, irq_requests_append, goodix_i2c_read_irq_requests]
      simp [irq_requests, Effect.irq_request]

theorem goodix_i2c_test_irq_requests (error0 : Int) (test : Mem) (w : World) :
    irq_requests (goodix_i2c_test error0 test w).2.trace = irq_requests w.trace :=
  goodix_i2c_test_loop_irq_requests 2 test error0 w

theorem goodix_read_version_irq_requests (old : Nat) (stack : Mem) (w : World) :
    irq_requests (goodix_read_version old stack w).2.2.trace = irq_requests w.trace := by
  simp only [goodix_read_version]
  split_ifs <;>
    simp [World.emit, irq_requests_append, goodix_i2c_read_irq_requests] <;>
    simp [irq_requests, Effect.irq_request]

theorem goodix_read_config_irq_requests (ts : goodix_ts_data) (stack : Mem) (w : World) :
    irq_requests (goodix_read_config ts stack w).2.trace = irq_requests w.trace := by
  simp only [goodix_read_config]
  split_ifs <;>
    simp [World.emit, irq_requests_append, goodix_i2c_read_irq_requests] <;>
    simp [irq_requests, Effect.irq_request]

theorem goodix_request_input_dev_irq_requests (p : Platform) (ts : goodix_ts_data) (w : World) :
    irq_requests (goodix_request_input_dev p ts w).2.trace = irq_requests w.trace := by
  simp only [goodix_request_input_dev]
  split_ifs <;> simp [World.emit, World.emits, irq_requests, Effect.irq_request]

/-- C8 as stated fails: with the trigger field 0 in the configuration block the table
entry is the rising-edge kind (and the local `irq_flags` is first set to it), but the
one IRQ request of the probe carries the level-low kind. -/
theorem probe_ignores_trigger_field :
    goodix_irq_flags.getD (bytes config_rising TRIGGER_LOC &&& 0x03) 0 = IRQ_TYPE_EDGE_RISING ∧
    (goodix_ts_probe platform_ok session5.client probe_stack (bus 2 config_rising 3)).table_flags
      = some (IRQ_TYPE_EDGE_RISING ||| IRQF_ONESHOT) ∧
    irq_requests
        (goodix_ts_probe platform_ok session5.client probe_stack (bus 2 config_rising 3)).world.trace
      = [(7, IRQ_TYPE_LEVEL_LOW ||| IRQF_ONESHOT)] ∧
    (IRQ_TYPE_LEVEL_LOW ||| IRQF_ONESHOT) &&& IRQF_TRIGGER_MASK = IRQ_TYPE_LEVEL_LOW ∧
    IRQ_TYPE_LEVEL_LOW ≠ IRQ_TYPE_EDGE_RISING :=
  ⟨rfl, rfl, rfl, rfl, by decide⟩

theorem ts_reset_device_bus (p : Platform) (w : World) :
    (ts_reset_device p w).2.xfer = w.xfer ∧ (ts_reset_device p w).2.n_xfer = w.n_xfer := by
  simp only [ts_reset_device]
  split_ifs <;> simp [World.emit, World.emits]

/-- A bus test that succeeds has consumed one transfer, or two when the first failed. -/
theorem goodix_i2c_test_bus (error0 : Int) (test : Mem) (w : World)
    (h : (goodix_i2c_test error0 test w).1 = 0) :
    (goodix_i2c_test error0 test w).2.xfer = w.xfer ∧
    (goodix_i2c_test error0 test w).2.n_xfer + 1 = config_read_index w := by
  revert h
  simp only [goodix_i2c_test, goodix_i2c_test_loop, config_read_index]
  split_ifs with h1 h2 h3 h4 h5
  all_goals intro h
  all_goals
    first
    | (exfalso
       rw [goodix_i2c_read_ret_eq_zero_iff] at h1
       contradiction)
    | (simp [goodix_i2c_read, World.emit])

theorem goodix_read_version_bus (old : Nat) (stack : Mem) (w : World) :
    (goodix_read_version old stack w).2.2.xfer = w.xfer ∧
    (goodix_read_version old stack w).2.2.n_xfer = w.n_xfer + 1 := by
  simp only [goodix_read_version]
  split_ifs <;> simp [goodix_i2c_read, World.emit]

/-- The trigger field the configuration reader stores: the low two bits of byte 6 of
a block that was read, the compiled default otherwise. -/
theorem goodix_read_config_trigger (ts : goodix_ts_data) (stack : Mem) (w : World) :
    ((w.xfer w.n_xfer).ret = 2 →
      (goodix_read_config ts stack w).1.int_trigger_type
        = (w.xfer w.n_xfer).rx TRIGGER_LOC % 256 % 4) ∧
    ((w.xfer w.n_xfer).ret ≠ 2 →
      (goodix_read_config ts stack w).1.int_trigger_type = GOODIX_INT_TRIGGER) := by
  have hand : ∀ x : Nat, x &&& 0x03 = x % 4 := fun x => Nat.and_pow_two_sub_one_eq_mod x 2
  constructor
  · intro h
    simp only [goodix_read_config]
    rw [if_neg (by simp [goodix_i2c_read_ret_ok _ _ _ _ _ h])]
    simp only [hand]
    split_ifs <;> simp [goodix_i2c_read, TRIGGER_LOC, GOODIX_CONFIG_MAX_LENGTH]
  · intro h
    simp only [goodix_read_config]
    rw [if_pos (by rw [Ne, goodix_i2c_read_ret_eq_zero_iff]; exact h)]

/-- The world in which a probe whose bus test and version read succeeded reads the
configuration block. -/
theorem probe_config_world (p : Platform) (st : ProbeStack) (w : World)
    (ht : (goodix_i2c_test st.test_error st.test (ts_reset_device p w).2).1 = 0) :
    (goodix_read_version st.version_info st.version_buf
        (goodix_i2c_test st.test_error st.test (ts_reset_device p w).2).2).2.2.xfer = w.xfer ∧
    (goodix_read_version st.version_info st.version_buf
        (goodix_i2c_test st.test_error st.test (ts_reset_device p w).2).2).2.2.n_xfer
      = config_read_index w := by
  have hr := ts_reset_device_bus p w
  have hb := goodix_i2c_test_bus st.test_error st.test (ts_reset_device p w).2 ht
  have hv := goodix_read_version_bus st.version_info st.version_buf
    (goodix_i2c_test st.test_error st.test (ts_reset_device p w).2).2
  refine ⟨by rw [hv.1, hb.1, hr.1], ?_⟩
  rw [hv.2, hb.2]
  simp only [config_read_index, hr.1, hr.2]

/-- The level-low kind is entry 2 of the trigger table and no other entry. -/
theorem level_low_entry : ∀ k < 4,
    ((IRQ_TYPE_LEVEL_LOW ||| IRQF_ONESHOT) &&& IRQF_TRIGGER_MASK = goodix_irq_flags.getD k 0
      ↔ k = 2) ∧
    (IRQ_TYPE_LEVEL_LOW ||| IRQF_ONESHOT = goodix_irq_flags.getD k 0 ||| IRQF_ONESHOT
      ↔ k = 2) := by
  decide

/-- The flags the probe first computes from the table, when it gets that far. -/
theorem probe_table_flags (p : Platform) (client : i2c_client) (st : ProbeStack) (w : World)
    (f : Nat) (hf : (goodix_ts_probe p client st w).table_flags = some f) :
    ((w.xfer (config_read_index w)).ret = 2 →
      f = goodix_irq_flags.getD ((w.xfer (config_read_index w)).rx TRIGGER_LOC % 256 % 4) 0
            ||| IRQF_ONESHOT) ∧
    ((w.xfer (config_read_index w)).ret ≠ 2 →
      f = goodix_irq_flags.getD GOODIX_INT_TRIGGER 0 ||| IRQF_ONESHOT) ∧
    irq_requests (goodix_ts_probe p client st w).world.trace
      = irq_requests w.trace ++ [(client.irq, IRQ_TYPE_LEVEL_LOW ||| IRQF_ONESHOT)] := by
  revert hf
  simp only [goodix_ts_probe]
  split_ifs with h1 h2 h3 h4 h5 h6 h7
  all_goals intro hf
  all_goals dsimp only at hf
  all_goals
    have ht : (goodix_i2c_test st.test_error st.test (ts_reset_device p w).2).1 = 0 :=
      not_not.mp h4
    have hw := probe_config_world p st w ht
    have htrig := goodix_read_config_trigger
      { client := client, abs_x_max := 0, abs_y_max := 0, max_touch_num := 0,
        int_trigger_type := 0 } st.config
      (goodix_read_version st.version_info st.version_buf
        (goodix_i2c_test st.test_error st.test (ts_reset_device p w).2).2).2.2
    rw [hw.1, hw.2] at htrig
    have hf' := (Option.some.inj hf).symm
    refine ⟨fun h => ?_, fun h => ?_, ?_⟩
    · rw [hf', htrig.1 h]
    · rw [hf', htrig.2 h]
    · simp only [World.emit, irq_requests_append, goodix_request_input_dev_irq_requests,
        goodix_read_config_irq_requests, goodix_read_version_irq_requests,
        goodix_i2c_test_irq_requests, ts_reset_device_irq_requests]
      simp [irq_requests, Effect.irq_request]

/-- The probe makes at most one IRQ request, with the level-low flags. -/
theorem probe_irq_requests_cases (p : Platform) (client : i2c_client) (st : ProbeStack)
    (w : World) :
    irq_requests (goodix_ts_probe p client st w).world.trace = irq_requests w.trace ∨
    irq_requests (goodix_ts_probe p client st w).world.trace
      = irq_requests w.trace ++ [(client.irq, IRQ_TYPE_LEVEL_LOW ||| IRQF_ONESHOT)] := by
  simp only [goodix_ts_probe]
  split_ifs
  all_goals
    simp only [World.emit, irq_requests_append, goodix_request_input_dev_irq_requests,
      goodix_read_config_irq_requests, goodix_read_version_irq_requests,
      goodix_i2c_test_irq_requests, ts_reset_device_irq_requests]
  all_goals simp [irq_requests, Effect.irq_request]

/-- A probe that returns 0 got as far as the table lookup. -/
theorem probe_success_table (p : Platform) (client : i2c_client) (st : ProbeStack) (w : World)
    (h : (goodix_ts_probe p client st w).ret = 0) :
    ∃ f, (goodix_ts_probe p client st w).table_flags = some f := by
  revert h
  simp only [goodix_ts_probe]
  split_ifs with h1 h2 h3 h4 h5 h6 h7
  all_goals intro h
  all_goals dsimp only at h
  all_goals
    first
    | (exfalso; simp only [ENOMEM, ENXIO] at h; omega)
    | (exfalso; omega)
    | skip
  exact ⟨_, rfl⟩

/-- A probe that did not get as far as the table lookup made no IRQ request. -/
theorem probe_no_table_no_request (p : Platform) (client : i2c_client) (st : ProbeStack)
    (w : World) (h : (goodix_ts_probe p client st w).table_flags = none) :
    irq_requests (goodix_ts_probe p client st w).world.trace = irq_requests w.trace := by
  revert h
  simp only [goodix_ts_probe]
  split_ifs with h1 h2 h3 h4 h5 h6 h7
  all_goals intro h
  all_goals dsimp only at h
  all_goals
    simp only [World.emit, irq_requests_append, goodix_request_input_dev_irq_requests,
      goodix_read_config_irq_requests, goodix_read_version_irq_requests,
      goodix_i2c_test_irq_requests, ts_reset_device_irq_requests]
  all_goals simp [irq_requests, Effect.irq_request]

/-- C8 (amended): the probe requests the interrupt at most once, for the client's
line, and always with `IRQ_TYPE_LEVEL_LOW | IRQF_ONESHOT`, and a probe that returns 0
has made that request.  The request is made exactly on the paths that first set
`irq_flags` from the table: after a successful read of the configuration block that
first value is `goodix_irq_flags[config[6] & 3] | IRQF_ONESHOT` (after a failed read
the entry of the default trigger), and the flags requested agree with it, in trigger
kind and as a whole, exactly when `config[6] & 3` is 2. -/
theorem probe_irq_request (p : Platform) (client : i2c_client) (st : ProbeStack) (w : World) :
    (irq_requests (goodix_ts_probe p client st w).world.trace = irq_requests w.trace ∨
     irq_requests (goodix_ts_probe p client st w).world.trace
       = irq_requests w.trace ++ [(client.irq, IRQ_TYPE_LEVEL_LOW ||| IRQF_ONESHOT)]) ∧
    ((goodix_ts_probe p client st w).ret = 0 →
     irq_requests (goodix_ts_probe p client st w).world.trace
       = irq_requests w.trace ++ [(client.irq, IRQ_TYPE_LEVEL_LOW ||| IRQF_ONESHOT)]) ∧
    ((goodix_ts_probe p client st w).ret = 0 →
     ∃ f, (goodix_ts_probe p client st w).table_flags = some f) ∧
    ((goodix_ts_probe p client st w).table_flags = none →
     irq_requests (goodix_ts_probe p client st w).world.trace = irq_requests w.trace) ∧
    (∀ f, (goodix_ts_probe p client st w).table_flags = some f →
      irq_requests (goodix_ts_probe p client st w).world.trace
        = irq_requests w.trace ++ [(client.irq, IRQ_TYPE_LEVEL_LOW ||| IRQF_ONESHOT)] ∧
      ((w.xfer (config_read_index w)).ret = 2 →
        f = goodix_irq_flags.getD ((w.xfer (config_read_index w)).rx TRIGGER_LOC % 256 % 4) 0
              ||| IRQF_ONESHOT ∧
        ((IRQ_TYPE_LEVEL_LOW ||| IRQF_ONESHOT) &&& IRQF_TRIGGER_MASK
            = goodix_irq_flags.getD ((w.xfer (config_read_index w)).rx TRIGGER_LOC % 256 % 4) 0
          ↔ (w.xfer (config_read_index w)).rx TRIGGER_LOC % 256 % 4 = 2) ∧
        (IRQ_TYPE_LEVEL_LOW ||| IRQF_ONESHOT = f
          ↔ (w.xfer (config_read_index w)).rx TRIGGER_LOC % 256 % 4 = 2)) ∧
      ((w.xfer (config_read_index w)).ret ≠ 2 →
        f = goodix_irq_flags.getD GOODIX_INT_TRIGGER 0 ||| IRQF_ONESHOT)) := by
  refine ⟨probe_irq_requests_cases p client st w, fun h => ?_, probe_success_table p client st w,
    probe_no_table_no_request p client st w, ?_⟩
  · obtain ⟨f, hf⟩ := probe_success_table p client st w h
    exact (probe_table_flags p client st w f hf).2.2
  · intro f hf
    have ht := probe_table_flags p client st w f hf
    have hlt : (w.xfer (config_read_index w)).rx TRIGGER_LOC % 256 % 4 < 4 :=
      Nat.mod_lt _ (by decide)
    refine ⟨ht.2.2, fun h => ⟨ht.1 h, (level_low_entry _ hlt).1, ?_⟩, ht.2.1⟩
    rw [ht.1 h]
    exact (level_low_entry _ hlt).2

/-- C8 (amended) on a platform where every step succeeds: with the trigger field 0
the table gives the rising-edge kind but the request is level-low; with the trigger
field 2 the two agree. -/
theorem probe_irq_request_witness :
    (irq_requests
        (goodix_ts_probe platform_ok session5.client probe_stack (bus 2 config_rising 3)).world.trace
      = irq_requests (bus 2 config_rising 3).trace
          ++ [(session5.client.irq, IRQ_TYPE_LEVEL_LOW ||| IRQF_ONESHOT)] ∧
     IRQ_TYPE_EDGE_RISING ||| IRQF_ONESHOT
      = goodix_irq_flags.getD
          (((bus 2 config_rising 3).xfer (config_read_index (bus 2 config_rising 3))).rx
            TRIGGER_LOC % 256 % 4) 0 ||| IRQF_ONESHOT) ∧
    ((IRQ_TYPE_LEVEL_LOW ||| IRQF_ONESHOT = IRQ_TYPE_LEVEL_LOW ||| IRQF_ONESHOT) ↔
      ((bus 2 config_level_low 3).xfer (config_read_index (bus 2 config_level_low 3))).rx
        TRIGGER_LOC % 256 % 4 = 2) :=
  ⟨⟨((probe_irq_request platform_ok session5.client probe_stack (bus 2 config_rising 3)).2.2.2.2
        (IRQ_TYPE_EDGE_RISING ||| IRQF_ONESHOT) rfl).1,
    (((probe_irq_request platform_ok session5.client probe_stack (bus 2 config_rising 3)).2.2.2.2
        (IRQ_TYPE_EDGE_RISING ||| IRQF_ONESHOT) rfl).2.1 rfl).1⟩,
   (((probe_irq_request platform_ok session5.client probe_stack (bus 2 config_level_low 3)).2.2.2.2
        (IRQ_TYPE_LEVEL_LOW ||| IRQF_ONESHOT) rfl).2.1 rfl).2.2⟩

end Goodix
